import Mathlib

/-!
Verification development for the `cscan` editor extension.

The repository holds two variants of `src/extension.ts` (a chat panel that
forwards the active document plus a question to a remote completion API)
and two variants of the webview script.  The definitions below are a
shallow embedding of that code: configuration loading (`getConfig`), the
outbound chat request and the response/error mapping (`chatWithCodestral`),
and the webview message handlers of both `activate` variants, modelled as
pure functions from an incoming message and the outcome of the HTTP call
to the list of observable effects (HTTP post, message posted back to the
panel, error notification).

The scan-diagnostics flow and the debounce utility are described by the
specification but have no source under `src/`; they are modelled from the
spec's words where a claim needs them, and marked as such.
-/

namespace Cscan

/-- A JSON value, as produced by `JSON.parse` / carried in HTTP bodies. -/
inductive Json where
  | str (s : String)
  | num (n : Int)
  | bool (b : Bool)
  | null
  | arr (elems : List Json)
  | obj (fields : List (String × Json))

/-- JavaScript property lookup on a parsed JSON object (first matching key). -/
def lookupField (k : String) : List (String × Json) → Option Json
  | [] => none
  | (k2, v) :: rest => if k2 = k then some v else lookupField k rest

/-- The `Config` record from `src/types` as used by `extension.ts`:
an endpoint URL and an API key. -/
structure Config where
  apiEndpoint : String
  apiKey : String
  deriving DecidableEq

/-- The on-disk `codestral-config.json` file: it stores an `apiEndpoint`
and possibly an `apiKey` value (which the loader overwrites). -/
structure FileConfig where
  apiEndpoint : String
  apiKey : String
  deriving DecidableEq

/-- Environment variable consulted by `getConfig` in the first variant of
`extension.ts` (`process.env.MISTRAL_API_KEY`). -/
def envVarName1 : String := "MISTRAL_API_KEY"

/-- Environment variable consulted by `getConfig` in the second variant of
`extension.ts` (`process.env.MISTRAL_API_KEY`). -/
def envVarName2 : String := "MISTRAL_API_KEY"

/-- `getConfig` of the first variant: parse the config file, then
`config.apiKey = process.env.MISTRAL_API_KEY || ''` (JavaScript `||`
treats both an unset variable and the empty string as falsy). -/
def getConfig1 (file : FileConfig) (env : String → Option String) : Config :=
  { apiEndpoint := file.apiEndpoint
    apiKey :=
      match env envVarName1 with
      | some s => if s = "" then "" else s
      | none => "" }

/-- `getConfig` of the second variant: identical to the first. -/
def getConfig2 (file : FileConfig) (env : String → Option String) : Config :=
  { apiEndpoint := file.apiEndpoint
    apiKey :=
      match env envVarName2 with
      | some s => if s = "" then "" else s
      | none => "" }

/-- An outbound `axios.post`: target URL and JSON body (ordered fields). -/
structure PostRequest where
  url : String
  body : List (String × Json)

/-- The request `chatWithCodestral` issues:
`axios.post(config.apiEndpoint + "/v1/fim/completions",
\x7b prompt, max_tokens: 1000, apiKey: config.apiKey \x7d)`. -/
def chatWithCodestralRequest (prompt : String) (config : Config) : PostRequest :=
  { url := config.apiEndpoint ++ "/v1/fim/completions"
    body := [("prompt", Json.str prompt),
             ("max_tokens", Json.num 1000),
             ("apiKey", Json.str config.apiKey)] }

/-- The outcome of the awaited `axios.post` call, as observed inside the
`try`/`catch` of `chatWithCodestral`:
either a response (its `data`), an axios error (carrying the optional
`error.response?.data.message` and the error's own `message`), some other
thrown `Error`, or a thrown non-`Error` value (already stringified). -/
inductive HttpOutcome where
  | success (data : Json)
  | axiosError (respMessage : Option String) (message : String)
  | otherError (message : String)
  | nonError (stringified : String)

/-- Whether the outcome is a failing remote call (the `catch` path). -/
def HttpOutcome.isFailure : HttpOutcome → Bool
  | .success _ => false
  | .axiosError _ _ => true
  | .otherError _ => true
  | .nonError _ => true

/-- `response.data.choices[0].message.content`: the reply text extracted
from a well-formed completion response. -/
def extractContent (data : Json) : Option String :=
  match data with
  | .obj fields =>
    match lookupField "choices" fields with
    | some (.arr (c0 :: _)) =>
      match c0 with
      | .obj cf =>
        match lookupField "message" cf with
        | some (.obj mf) =>
          match lookupField "content" mf with
          | some (.str s) => some s
          | _ => none
        | _ => none
      | _ => none
    | _ => none
  | _ => none

/-- What `chatWithCodestral` returns (or throws, wrapped as `err`). -/
inductive ChatResult where
  | ok (content : String)
  | err (message : String)
  deriving DecidableEq

/-- The result mapping of `chatWithCodestral`: on success return the
extracted content; in the `catch`, an axios error is rethrown as
`new Error(error.response?.data.message || error.message)`, an `Error` is
rethrown as is, and anything else as `new Error(String(error))`.
A success response from which `data.choices[0].message.content` cannot be
read makes the JavaScript throw a `TypeError`, which the `catch` rethrows
unchanged; its runtime message is modelled by a fixed marker string. -/
def chatWithCodestralResult (outcome : HttpOutcome) : ChatResult :=
  match outcome with
  | .success data =>
    match extractContent data with
    | some s => .ok s
    | none => .err "TypeError: malformed completion response"
  | .axiosError respMessage message =>
    .err (match respMessage with
          | some m => if m = "" then message else m
          | none => message)
  | .otherError message => .err message
  | .nonError stringified => .err stringified

/-- The error text the user-visible notification carries for a failing
call: the remote error message when the axios error has a truthy
`response?.data.message`, otherwise the error's own (or stringified)
message. -/
def errText : HttpOutcome → String
  | .success _ => ""
  | .axiosError respMessage message =>
    match respMessage with
    | some m => if m = "" then message else m
    | none => message
  | .otherError message => message
  | .nonError stringified => stringified

/-- A message sent from the webview to the extension:
`\x7b command, text \x7d`. -/
structure WebviewMessage where
  command : String
  text : String
  deriving DecidableEq

/-- An observable effect of the extension's message handler. -/
inductive Effect where
  | httpPost (req : PostRequest)
  | postMessage (command : String) (payload : String)
  | showError (message : String)

/-- The `onDidReceiveMessage` handler of the FIRST `activate` variant
(`initialPrompt` was captured when the panel was opened).  On
`askQuestion` it builds `initialPrompt + "\n\nQuestion: " + question`,
always issues the HTTP call, and either posts
`\x7b command: 'chatResponse', response \x7d` back to the panel or shows
`'Error: ' + message` in a notification; any other command falls through
the `switch` and does nothing. -/
def handleMessage1 (initialPrompt : String) (config : Config)
    (msg : WebviewMessage) (outcome : HttpOutcome) : List Effect :=
  if msg.command = "askQuestion" then
    let prompt := initialPrompt ++ "\n\nQuestion: " ++ msg.text
    let req := chatWithCodestralRequest prompt config
    match chatWithCodestralResult outcome with
    | .ok content => [.httpPost req, .postMessage "chatResponse" content]
    | .err m => [.httpPost req, .showError ("Error: " ++ m)]
  else []

/-- The `onDidReceiveMessage` handler of the SECOND `activate` variant:
on `askQuestion` it first requires an active text editor
(`editor : Option String` carries its document text); with no editor the
question is silently dropped.  Otherwise as in the first variant, with the
editor text as the code context. -/
def handleMessage2 (editor : Option String) (config : Config)
    (msg : WebviewMessage) (outcome : HttpOutcome) : List Effect :=
  if msg.command = "askQuestion" then
    match editor with
    | some code =>
      let prompt := code ++ "\n\nQuestion: " ++ msg.text
      let req := chatWithCodestralRequest prompt config
      match chatWithCodestralResult outcome with
      | .ok content => [.httpPost req, .postMessage "chatResponse" content]
      | .err m => [.httpPost req, .showError ("Error: " ++ m)]
    | none => []
  else []

/-- Command ids registered by `activate` in the first variant of
`extension.ts` (one `registerCommand` call: `cscan.startChat`). -/
def registeredCommands1 : List String := ["cscan.startChat"]

/-- Severity tier of a scan issue, per the spec: high, medium or low. -/
inductive Severity where
  | high
  | medium
  | low
  deriving DecidableEq

/-- One issue of a scan response: a 1-based source line number, a
human-readable message and a severity tier. -/
structure Issue where
  line : Nat
  message : String
  severity : Severity
  deriving DecidableEq

/-- A zero-based editor range: start and end positions. -/
structure DiagRange where
  startLine : Nat
  startChar : Nat
  endLine : Nat
  endChar : Nat
  deriving DecidableEq

/-- Presentation tier of a diagnostic marker: error or warning. -/
inductive DiagSeverity where
  | error
  | warning
  deriving DecidableEq

/-- An editor diagnostic marker: a range, a message and a tier. -/
structure Diagnostic where
  range : DiagRange
  message : String
  severity : DiagSeverity
  deriving DecidableEq

/-- Modelled from the spec: the scan-diagnostics flow of the extension has
no source under `src/` (only the chat variants are present).  Per the
spec, a well-formed scan response `\x7b issues: [\x7b line, message,
severity \x7d] \x7d` is mapped onto one diagnostic marker per issue,
anchored at `(line-1, 0)`-`(line-1, 100)`, with severity `high` mapped to
the error tier and every other severity to the warning tier. -/
def diagnosticsOfScan (issues : List Issue) : List Diagnostic :=
  issues.map fun i =>
    { range := { startLine := i.line - 1, startChar := 0,
                 endLine := i.line - 1, endChar := 100 }
      message := i.message
      severity := if i.severity = .high then .error else .warning }

/-- The fixed debounce window from the spec: 2 seconds (in milliseconds). -/
def debounceWait : Nat := 2000

/-- State of a debounce wrapper between invocations: the deadline of the
pending timer, if one is armed, and the times at which the wrapped
function has fired so far. -/
structure DebounceState where
  pending : Option Nat
  fires : List Nat

/-- Modelled from the spec: the debounce wrapper itself has no source
under `src/`.  Per the spec it is a generic delay-and-coalesce utility
with a fixed 2-second window and an optional leading-edge-trigger mode:
each invocation cancels the pending timer and arms a new one a full
window away; when a timer expires the wrapped function fires (trailing
mode), while in leading-edge mode the wrapped function fires immediately
on an invocation that found no timer armed and the timer expiry fires
nothing.  `debounceStep` processes one invocation at time `t`: it first
lets an already-expired timer fire, then arms the new timer. -/
def debounceStep (leading : Bool) (s : DebounceState) (t : Nat) : DebounceState :=
  let s : DebounceState :=
    match s.pending with
    | some d =>
      if d ≤ t then
        { pending := none
          fires := s.fires ++ (if leading then [] else [d]) }
      else s
    | none => s
  let callNow := leading && s.pending.isNone
  { pending := some (t + debounceWait)
    fires := s.fires ++ (if callNow then [t] else []) }

/-- Modelled from the spec: run the debounce wrapper over a whole
increasing sequence of invocation times and report every time at which
the wrapped function fired, letting the final pending timer (if any)
expire at the end. -/
def debounceRun (leading : Bool) (calls : List Nat) : List Nat :=
  let s := calls.foldl (debounceStep leading) { pending := none, fires := [] }
  match s.pending with
  | some d => s.fires ++ (if leading then [] else [d])
  | none => s.fires

/-- A burst: each invocation happens no earlier than the previous one and
strictly before the previous invocation's window elapses. -/
def withinWindow : List Nat → Bool
  | [] => true
  | [_] => true
  | a :: b :: rest => (a ≤ b && b < a + debounceWait) && withinWindow (b :: rest)

/-- Command ids registered by `activate` in the second variant of
`extension.ts` (one `registerCommand` call: `cscan.startChat`). -/
def registeredCommands2 : List String := ["cscan.startChat"]

/-- A concrete well-formed completion response body, used as a test input:
`\x7b choices: [\x7b message: \x7b content: "hi" \x7d \x7d] \x7d`. -/
def sampleCompletion : Json :=
  .obj [("choices", .arr [.obj [("message", .obj [("content", .str "hi")])]])]

/-! ## Theorems -/

/-- Helper: with a timer armed at `t0 + debounceWait`, every further
invocation of a burst chained from `t0` arrives before the pending
deadline, so it only re-arms the timer and fires nothing. -/
theorem debounce_foldl_burst (leading : Bool) (fs : List Nat) (cs : List Nat) :
    ∀ t0 : Nat, withinWindow (t0 :: cs) = true →
      List.foldl (debounceStep leading) ⟨some (t0 + debounceWait), fs⟩ cs =
        ⟨some (cs.getLastD t0 + debounceWait), fs⟩ := by
  induction cs with
  | nil => intro t0 _; rfl
  | cons b rest ih =>
    intro t0 h
    simp only [withinWindow, Bool.and_eq_true, decide_eq_true_eq] at h
    obtain ⟨⟨hle, hlt⟩, hrest⟩ := h
    have hstep : debounceStep leading ⟨some (t0 + debounceWait), fs⟩ b =
        ⟨some (b + debounceWait), fs⟩ := by
      simp [debounceStep, Nat.not_le.mpr hlt]
    rw [List.foldl_cons, hstep, ih b hrest, List.getLastD_cons]

/-- C8: k invocations of the debounce wrapper within the wait window
(fixed at 2 seconds) make the wrapped function fire exactly once — after
the window elapses from the last invocation in trailing mode, or
immediately at the first invocation in leading-edge mode. -/
theorem debounce_coalesces_burst (c : Nat) (cs : List Nat)
    (h : withinWindow (c :: cs) = true) :
    debounceWait = 2000 ∧
    debounceRun false (c :: cs) = [cs.getLastD c + debounceWait] ∧
    debounceRun true (c :: cs) = [c] := by
  have hfirst : ∀ leading : Bool, debounceStep leading ⟨none, []⟩ c =
      ⟨some (c + debounceWait), if leading then [c] else []⟩ := by
    intro leading
    cases leading <;> simp [debounceStep]
  refine ⟨rfl, ?_, ?_⟩
  · simp only [debounceRun, List.foldl_cons, hfirst false, Bool.false_eq_true,
      if_false]
    rw [debounce_foldl_burst false [] cs c h]
    simp
  · simp only [debounceRun, List.foldl_cons, hfirst true, if_true]
    rw [debounce_foldl_burst true [c] cs c h]
    simp

/-- Witness for C8 at the concrete burst `[0, 1000, 1500]`. -/
theorem debounce_coalesces_burst_witness :
    withinWindow [0, 1000, 1500] = true ∧
    debounceRun false [0, 1000, 1500] = [3500] ∧
    debounceRun true [0, 1000, 1500] = [0] := by
  have h := debounce_coalesces_burst 0 [1000, 1500] (by decide)
  have h1 := h.2.1
  norm_num [List.getLastD, debounceWait] at h1
  exact ⟨by decide, h1, h.2.2⟩

/-- C4: a well-formed scan response with n issues produces exactly n
diagnostic markers; the marker for an issue at 1-based line L is anchored
at (L-1, 0)-(L-1, 100), and severity maps high to the error tier while
medium and low both map to the warning tier. -/
theorem scan_response_to_diagnostics (issues : List Issue) :
    (diagnosticsOfScan issues).length = issues.length ∧
    List.Forall₂
      (fun (i : Issue) (d : Diagnostic) =>
        d.range = { startLine := i.line - 1, startChar := 0,
                    endLine := i.line - 1, endChar := 100 } ∧
        d.message = i.message ∧
        d.severity = (match i.severity with
                      | .high => .error
                      | .medium => .warning
                      | .low => .warning))
      issues (diagnosticsOfScan issues) := by
  constructor
  · simp [diagnosticsOfScan]
  · induction issues with
    | nil => simp [diagnosticsOfScan]
    | cons i rest ih =>
      refine List.Forall₂.cons ⟨rfl, rfl, ?_⟩ ih
      cases hs : i.severity <;> simp [hs]

/-- C1: an `askQuestion` chat message issues one HTTP POST to
`apiEndpoint ++ "/v1/fim/completions"` whose body holds exactly the
fields `prompt`, `max_tokens` and `apiKey`, and on a success response the
text extracted at `data.choices[0].message.content` is posted back to the
panel as the `chatResponse` message. -/
theorem chat_success_roundtrip (initialPrompt question : String) (config : Config)
    (data : Json) (reply : String) (h : extractContent data = some reply) :
    handleMessage1 initialPrompt config ⟨"askQuestion", question⟩ (.success data) =
      [Effect.httpPost
        { url := config.apiEndpoint ++ "/v1/fim/completions"
          body := [("prompt", Json.str (initialPrompt ++ "\n\nQuestion: " ++ question)),
                   ("max_tokens", Json.num 1000),
                   ("apiKey", Json.str config.apiKey)] },
       Effect.postMessage "chatResponse" reply] := by
  simp [handleMessage1, chatWithCodestralRequest, chatWithCodestralResult, h]

/-- Witness for C1 at a concrete well-formed completion response. -/
theorem chat_success_roundtrip_witness :
    handleMessage1 "code" ⟨"https://api.example", "key"⟩ ⟨"askQuestion", "why"⟩
        (.success sampleCompletion) =
      [Effect.httpPost
        { url := "https://api.example" ++ "/v1/fim/completions"
          body := [("prompt", Json.str ("code" ++ "\n\nQuestion: " ++ "why")),
                   ("max_tokens", Json.num 1000),
                   ("apiKey", Json.str "key")] },
       Effect.postMessage "chatResponse" "hi"] :=
  chat_success_roundtrip "code" "why" ⟨"https://api.example", "key"⟩ sampleCompletion "hi" rfl

/-- C2: a failing remote chat call produces exactly the attempted HTTP
post and one error notification carrying the remote error message (or the
error's own / stringified message); no `chatResponse` (or any other)
message is posted back to the panel, nothing is rethrown past the handler
and the call is not retried. -/
theorem chat_error_notification (initialPrompt question : String) (config : Config)
    (outcome : HttpOutcome) (h : outcome.isFailure = true) :
    handleMessage1 initialPrompt config ⟨"askQuestion", question⟩ outcome =
      [Effect.httpPost (chatWithCodestralRequest
         (initialPrompt ++ "\n\nQuestion: " ++ question) config),
       Effect.showError ("Error: " ++ errText outcome)] ∧
    ∀ cmd payload, Effect.postMessage cmd payload ∉
      handleMessage1 initialPrompt config ⟨"askQuestion", question⟩ outcome := by
  have heq : handleMessage1 initialPrompt config ⟨"askQuestion", question⟩ outcome =
      [Effect.httpPost (chatWithCodestralRequest
         (initialPrompt ++ "\n\nQuestion: " ++ question) config),
       Effect.showError ("Error: " ++ errText outcome)] := by
    cases outcome with
    | success data => simp [HttpOutcome.isFailure] at h
    | axiosError respMessage message =>
      cases respMessage with
      | none => simp [handleMessage1, chatWithCodestralResult, errText]
      | some s =>
        by_cases hs : s = "" <;>
          simp [handleMessage1, chatWithCodestralResult, errText, hs]
    | otherError message => simp [handleMessage1, chatWithCodestralResult, errText]
    | nonError stringified => simp [handleMessage1, chatWithCodestralResult, errText]
  refine ⟨heq, ?_⟩
  intro cmd payload
  rw [heq]
  simp

/-- Witness for C2 at a concrete axios error carrying a remote message. -/
theorem chat_error_notification_witness :
    handleMessage1 "code" ⟨"https://api.example", "key"⟩ ⟨"askQuestion", "why"⟩
        (.axiosError (some "bad key") "Request failed") =
      [Effect.httpPost (chatWithCodestralRequest
         ("code" ++ "\n\nQuestion: " ++ "why") ⟨"https://api.example", "key"⟩),
       Effect.showError ("Error: " ++
         errText (.axiosError (some "bad key") "Request failed"))] :=
  (chat_error_notification "code" "why" ⟨"https://api.example", "key"⟩
    (.axiosError (some "bad key") "Request failed") rfl).1

/-- C3: with the API-key environment variable unset or empty, the loaded
configuration has an empty `apiKey`, an `askQuestion` message still
issues the HTTP call (its first effect is the post; there is no
client-side guard), and a failing call is surfaced as an error
notification among the effects rather than thrown uncaught. -/
theorem empty_key_still_calls (file : FileConfig) (env : String → Option String)
    (initialPrompt question : String) (outcome : HttpOutcome)
    (henv : env envVarName1 = none ∨ env envVarName1 = some "") :
    (getConfig1 file env).apiKey = "" ∧
    (handleMessage1 initialPrompt (getConfig1 file env)
        ⟨"askQuestion", question⟩ outcome).head? =
      some (Effect.httpPost (chatWithCodestralRequest
        (initialPrompt ++ "\n\nQuestion: " ++ question) (getConfig1 file env))) ∧
    (outcome.isFailure = true →
      Effect.showError ("Error: " ++ errText outcome) ∈
        handleMessage1 initialPrompt (getConfig1 file env)
          ⟨"askQuestion", question⟩ outcome) := by
  refine ⟨?_, ?_, ?_⟩
  · rcases henv with h | h <;> simp [getConfig1, h]
  · cases outcome with
    | success data =>
      cases hc : extractContent data <;>
        simp [handleMessage1, chatWithCodestralResult, hc]
    | axiosError respMessage message =>
      simp [handleMessage1, chatWithCodestralResult]
    | otherError message => simp [handleMessage1, chatWithCodestralResult]
    | nonError stringified => simp [handleMessage1, chatWithCodestralResult]
  · intro hf
    cases outcome with
    | success data => simp [HttpOutcome.isFailure] at hf
    | axiosError respMessage message =>
      cases respMessage with
      | none => simp [handleMessage1, chatWithCodestralResult, errText]
      | some s =>
        by_cases hs : s = "" <;>
          simp [handleMessage1, chatWithCodestralResult, errText, hs]
    | otherError message => simp [handleMessage1, chatWithCodestralResult, errText]
    | nonError stringified => simp [handleMessage1, chatWithCodestralResult, errText]

/-- Witness for C3 with an environment that defines no variable at all. -/
theorem empty_key_still_calls_witness :
    (getConfig1 ⟨"https://api.example", "fileKey"⟩ (fun _ => none)).apiKey = "" ∧
    (handleMessage1 "code" (getConfig1 ⟨"https://api.example", "fileKey"⟩ (fun _ => none))
        ⟨"askQuestion", "why"⟩ (.otherError "boom")).head? =
      some (Effect.httpPost (chatWithCodestralRequest
        ("code" ++ "\n\nQuestion: " ++ "why")
        (getConfig1 ⟨"https://api.example", "fileKey"⟩ (fun _ => none)))) ∧
    ((HttpOutcome.otherError "boom").isFailure = true →
      Effect.showError ("Error: " ++ errText (.otherError "boom")) ∈
        handleMessage1 "code" (getConfig1 ⟨"https://api.example", "fileKey"⟩ (fun _ => none))
          ⟨"askQuestion", "why"⟩ (.otherError "boom")) :=
  empty_key_still_calls ⟨"https://api.example", "fileKey"⟩ (fun _ => none)
    "code" "why" (.otherError "boom") (Or.inl rfl)

/-- C5 counterexample: both `activate` variants register exactly the
single command `cscan.startChat`; the command surface does not consist of
two commands, and no manual-scan command is registered. -/
theorem registered_commands_not_two :
    registeredCommands1 = ["cscan.startChat"] ∧
    registeredCommands2 = ["cscan.startChat"] ∧
    registeredCommands1.length ≠ 2 ∧
    registeredCommands2.length ≠ 2 := by decide

/-- C5 amended: the command surface of each variant in the source is
exactly one command, `cscan.startChat`, which opens the chat panel. -/
theorem registered_commands_single_chat :
    registeredCommands1.length = 1 ∧
    registeredCommands2.length = 1 ∧
    registeredCommands1 = ["cscan.startChat"] ∧
    registeredCommands2 = ["cscan.startChat"] := by decide

/-- C6 counterexample: the two variants of `getConfig` read the API key
from the same environment variable name, not from two different ones. -/
theorem envvar_names_equal : envVarName1 = envVarName2 := rfl

/-- C6 amended: both variants read the API key from the single
environment variable `MISTRAL_API_KEY`, and the two `getConfig` variants
are the same function. -/
theorem envvar_same_across_variants :
    envVarName1 = "MISTRAL_API_KEY" ∧
    envVarName2 = "MISTRAL_API_KEY" ∧
    getConfig1 = getConfig2 :=
  ⟨rfl, rfl, rfl⟩

/-- C7: the loaded configuration takes `apiEndpoint` from the config
file and `apiKey` from the environment variable (empty when unset),
never from the `apiKey` value stored in the file: the result does not
depend on the file's key at all. -/
theorem getConfig_key_from_env (endpoint fileKey : String)
    (env : String → Option String) :
    (getConfig1 ⟨endpoint, fileKey⟩ env).apiEndpoint = endpoint ∧
    (getConfig1 ⟨endpoint, fileKey⟩ env).apiKey = (env envVarName1).getD "" ∧
    ∀ otherKey : String,
      getConfig1 ⟨endpoint, fileKey⟩ env = getConfig1 ⟨endpoint, otherKey⟩ env := by
  refine ⟨rfl, ?_, fun _ => rfl⟩
  cases henv : env envVarName1 with
  | none => simp [getConfig1, henv]
  | some s =>
    by_cases hs : s = "" <;> simp [getConfig1, henv, hs]

/-- C9: a webview message whose command is not `askQuestion` (such as the
`scanCode` message of the second webview variant) produces no effect at
all in either handler — no HTTP request and no reply message — and no
handler ever posts a `scanResult` message. -/
theorem non_ask_messages_ignored (config : Config) (initialPrompt : String)
    (editor : Option String) (msg : WebviewMessage) (outcome : HttpOutcome)
    (h : msg.command ≠ "askQuestion") :
    handleMessage1 initialPrompt config msg outcome = [] ∧
    handleMessage2 editor config msg outcome = [] ∧
    ∀ (msg2 : WebviewMessage) (oc2 : HttpOutcome) (payload : String),
      Effect.postMessage "scanResult" payload ∉
        handleMessage1 initialPrompt config msg2 oc2 := by
  refine ⟨by simp [handleMessage1, h], by simp [handleMessage2, h], ?_⟩
  intro msg2 oc2 payload
  by_cases h2 : msg2.command = "askQuestion"
  · cases hres : chatWithCodestralResult oc2 with
    | ok content => simp [handleMessage1, h2, hres]
    | err m => simp [handleMessage1, h2, hres]
  · simp [handleMessage1, h2]

/-- Witness for C9 at the concrete `scanCode` message. -/
theorem non_ask_messages_ignored_witness :
    handleMessage1 "code" ⟨"https://api.example", "key"⟩
        ⟨"scanCode", "some code"⟩ (.nonError "x") = [] ∧
    handleMessage2 (some "code") ⟨"https://api.example", "key"⟩
        ⟨"scanCode", "some code"⟩ (.nonError "x") = [] ∧
    Effect.postMessage "scanResult" "r" ∉
      handleMessage1 "code" ⟨"https://api.example", "key"⟩
        ⟨"askQuestion", "why"⟩ (.nonError "x") := by
  have h := non_ask_messages_ignored ⟨"https://api.example", "key"⟩ "code"
    (some "code") ⟨"scanCode", "some code"⟩ (.nonError "x") (by decide)
  exact ⟨h.1, h.2.1, h.2.2 ⟨"askQuestion", "why"⟩ (.nonError "x") "r"⟩

/-- C10: in the second variant, an `askQuestion` message arriving with no
active text editor produces no effect at all: no HTTP request, no message
posted back to the panel, no error notification — the question is
silently dropped. -/
theorem no_editor_drops_question (config : Config) (question : String)
    (outcome : HttpOutcome) :
    handleMessage2 none config ⟨"askQuestion", question⟩ outcome = [] := by
  simp [handleMessage2]

end Cscan
